import Mathlib

/-!
Verification development for the policy-understanding retrieval-and-orchestration
pipeline: a shallow embedding of the document chunker (`src/rag/policy_loader.py`),
the vector retriever (`src/rag/retriever.py`), the secondary category filter
(`src/agents/retrieval_agent.py`), the policy selector
(`src/agents/policy_selector.py`) and the orchestrator
(`src/agents/orchestrator.py`), together with theorems settling the frozen
claims about them.

Python strings are modelled as Lean `String`s; the handful of Python string
operations the code uses (`in`, `split`, `strip`, `lower`, `capitalize`,
`re.match` on the two literal heading patterns) are defined below over the
underlying character lists, mirroring the Python semantics, so that all
string computations reduce.

External semantic services (embedding provider, intent classifier, scenario
interpreter, answer synthesizer) are black boxes in the source; they are
modelled as function parameters (oracles) of the components that call them.
-/

namespace PolicyRag

/-! ### Python string primitives -/

/-- Python whitespace characters stripped by `str.strip()` (ASCII range). -/
def isSpaceChar (c : Char) : Bool :=
  c == ' ' || c == '\t' || c == '\n' || c == '\r' || c == '\x0b' || c == '\x0c'

/-- Mirrors Python `needle in hay` (substring containment; `"" in s` is `True`). -/
def contains_chars : List Char → List Char → Bool
  | [], needle => needle.isEmpty
  | c :: rest, needle => needle.isPrefixOf (c :: rest) || contains_chars rest needle

/-- Mirrors Python `needle in hay` on strings. -/
def containsSub (hay needle : String) : Bool :=
  contains_chars hay.data needle.data

/-- Worker for `pySplit`: scans left to right, splitting on each
non-overlapping occurrence of `sep`.  The fuel argument (structural) is an
upper bound on the number of characters still to scan; every step consumes at
least one character, so starting the fuel at the string's length makes the
fuel-exhausted branch unreachable. -/
def split_chars (sep : List Char) : Nat → List Char → List Char → List (List Char)
  | _, [], acc => [acc.reverse]
  | 0, s, acc => [acc.reverse ++ s]
  | fuel + 1, c :: rest, acc =>
    if 0 < sep.length ∧ sep.isPrefixOf (c :: rest) then
      acc.reverse :: split_chars sep fuel (rest.drop (sep.length - 1)) []
    else
      split_chars sep fuel rest (c :: acc)

/-- Mirrors Python `re.split(sep, s)` for a separator literal containing no
regex metacharacters (the source only splits on the literals
`"\n## "` and `"\n### "`), which coincides with `s.split(sep)`. -/
def pySplit (sep s : String) : List String :=
  (split_chars sep.data s.data.length s.data []).map String.mk

/-- Mirrors Python `s.strip()`: removes leading and trailing whitespace. -/
def pyStrip (s : String) : String :=
  ⟨((s.data.dropWhile isSpaceChar).reverse.dropWhile isSpaceChar).reverse⟩

/-- Mirrors Python `s.lower()` (the source only lowercases ASCII text). -/
def pyLower (s : String) : String :=
  ⟨s.data.map Char.toLower⟩

/-- Mirrors Python `s.capitalize()`: first character uppercased, rest lowercased. -/
def pyCapitalize (s : String) : String :=
  match s.data with
  | [] => ⟨[]⟩
  | c :: rest => ⟨c.toUpper :: rest.map Char.toLower⟩

/-- Mirrors `re.match(marker ++ "(.+?)\n", s)` for the two heading patterns
`"## (.+?)\n"` and `"### (.+?)\n"` of `PolicyLoader.load_policy`: the match
succeeds on a string starting with `marker` whose following character run up
to the first newline is non-empty, and captures that run (`.` does not match
a newline, and the non-greedy group must be followed by the first newline). -/
def match_heading_title (marker s : String) : Option String :=
  if marker.data.isPrefixOf s.data then
    let rest := s.data.drop marker.data.length
    let t := rest.takeWhile (fun c => c != '\n')
    if t.length = 0 || t.length = rest.length then none else some ⟨t⟩
  else none

/-! ### Document chunker (`src/rag/policy_loader.py`) -/

/-- `PolicyChunk` from `src/rag/policy_loader.py`: a chunk of policy text with
metadata. -/
structure PolicyChunk where
  text : String
  policy_type : String
  policy_file : String
  section_name : String
  chunk_type : String
deriving Repr, DecidableEq

/-- The content exclusion keywords of `PolicyLoader._determine_chunk_type`. -/
def exclusion_keywords : List String :=
  ["not covered", "we do not cover", "excluded", "exclusion"]

/-- The content coverage keywords of `PolicyLoader._determine_chunk_type`. -/
def coverage_keywords : List String :=
  ["we will pay", "we cover", "coverage includes"]

/-- Mirrors `PolicyLoader._determine_chunk_type`: classifies a section as
coverage, exclusion or general from its title and full content, first match
winning. -/
def determine_chunk_type (section_title section_content : String) : String :=
  let title_lower := pyLower section_title
  let content_lower := pyLower section_content
  if containsSub title_lower "exclusion" || containsSub title_lower "not covered" then
    "exclusion"
  else if containsSub title_lower "coverage" || containsSub title_lower "perils insured" then
    "coverage"
  else if exclusion_keywords.any (fun k => containsSub content_lower k) then
    "exclusion"
  else if coverage_keywords.any (fun k => containsSub content_lower k) then
    "coverage"
  else
    "general"

/-- Mirrors the policy-type derivation in `PolicyLoader.load_policy`:
`"auto" if "auto" in policy_filename.lower() else "property"`. -/
def policy_type_of (policy_filename : String) : String :=
  if containsSub (pyLower policy_filename) "auto" then "auto" else "property"

/-- The section title used by `PolicyLoader.load_policy` for a top-level
section text (`"## " ++ piece`): the regex capture, or `"Unknown Section"`. -/
def section_title_of (piece : String) : String :=
  (match_heading_title "## " ("## " ++ piece)).getD "Unknown Section"

/-- The chunks produced by one iteration (`i ≥ 1`) of the section loop of
`PolicyLoader.load_policy` on the piece following a `"\n## "` split point:
the `"## "` marker is added back, the title extracted, the chunk type
determined once for the whole section, and the section split on `"\n### "`
into an optional intro chunk plus one chunk per subsection. -/
def section_chunks (policy_type policy_filename piece : String) : List PolicyChunk :=
  let sectionText := "## " ++ piece
  let section_title := section_title_of piece
  let chunk_type := determine_chunk_type section_title sectionText
  match pySplit "\n### " sectionText with
  | [] => []
  | [_] =>
      [{ text := pyStrip sectionText, policy_type := policy_type,
         policy_file := policy_filename, section_name := section_title,
         chunk_type := chunk_type }]
  | intro :: subs =>
      (if pyStrip intro = "" then [] else
        [{ text := pyStrip intro, policy_type := policy_type,
           policy_file := policy_filename, section_name := section_title,
           chunk_type := chunk_type }]) ++
      subs.map (fun sub =>
        let subText := "### " ++ sub
        let subsection_title :=
          (match_heading_title "### " subText).getD "Unknown Subsection"
        { text := pyStrip subText, policy_type := policy_type,
          policy_file := policy_filename,
          section_name := section_title ++ " - " ++ subsection_title,
          chunk_type := chunk_type })

/-- Mirrors `PolicyLoader.load_policy` on the file's text (the file read
itself is an I/O concern of the caller): split on `"\n## "`, keep the part
before the first marker as the `"Policy Header"` general chunk when it strips
non-empty, and chunk every following section. -/
def load_policy (policy_filename content : String) : List PolicyChunk :=
  let policy_type := policy_type_of policy_filename
  match pySplit "\n## " content with
  | [] => []
  | header :: rest =>
      (if pyStrip header = "" then [] else
        [{ text := pyStrip header, policy_type := policy_type,
           policy_file := policy_filename, section_name := "Policy Header",
           chunk_type := "general" }]) ++
      rest.flatMap (section_chunks policy_type policy_filename)

/-- Modelled from the spec: the per-chunk clause-category classification
the spec describes ("applied per chunk, in priority order, first match wins",
with the chunk's own heading and body text), stated with the keyword sets of
the source.  It exists to be compared with what `load_policy` actually
assigns to each chunk. -/
def spec_chunk_category (c : PolicyChunk) : String :=
  determine_chunk_type c.section_name c.text

/-! ### Vector index and retriever (`src/rag/retriever.py`)

Embedding vectors are modelled as rational vectors (`List ℚ`).  The embedding
provider is a black box; components taking embeddings take them as function
parameters, and normalization facts (`faiss.normalize_L2` makes the stored
and query vectors unit vectors) appear as hypotheses of the theorems.  FAISS's
`IndexFlatL2.search` returns the **squared** L2 distances of the `k` exact
nearest neighbours in ascending order, which is what `search_index` models
(ties broken by insertion order; when `k` exceeds the number of stored
vectors FAISS pads with index `-1`, which the retrieval loop skips — modelled
by the candidate list simply being shorter). -/

/-- A stored embedding vector. -/
abbrev Vec := List ℚ

/-- Squared euclidean norm of a vector. -/
def sqNorm : Vec → ℚ
  | [] => 0
  | a :: as => a * a + sqNorm as

/-- Dot product of two vectors (trailing entries of the longer one ignored). -/
def dotp : Vec → Vec → ℚ
  | [], _ => 0
  | _, [] => 0
  | a :: as, b :: bs => a * b + dotp as bs

/-- Squared L2 distance between two vectors, the quantity FAISS's
`IndexFlatL2` search reports as `distance`. -/
def sqDist : Vec → Vec → ℚ
  | [], _ => 0
  | _, [] => 0
  | a :: as, b :: bs => (a - b) * (a - b) + sqDist as bs

/-- Squared norm of the pointwise sum of two vectors (auxiliary quantity for
the similarity bounds). -/
def addSq : Vec → Vec → ℚ
  | [], _ => 0
  | _, [] => 0
  | a :: as, b :: bs => (a + b) * (a + b) + addSq as bs

/-- Candidate ordering of the nearest-neighbour search: ascending squared
distance, ties broken by ascending insertion index. -/
def candidate_le (a b : Nat × ℚ) : Bool :=
  decide (a.2 < b.2) || (decide (a.2 = b.2) && decide (a.1 ≤ b.1))

/-- Ordered insertion (auxiliary to `sort_le`). -/
def insert_le (le : α → α → Bool) (a : α) : List α → List α
  | [] => [a]
  | b :: bs => if le a b then a :: b :: bs else b :: insert_le le a bs

/-- Insertion sort by a boolean comparison; with the total antisymmetric
comparison `candidate_le` it produces the unique ascending ordering, which is
what the exact FAISS search returns. -/
def sort_le (le : α → α → Bool) : List α → List α
  | [] => []
  | a :: as => insert_le le a (sort_le le as)

/-- Models `self.index.search(query_embedding, k)` on an `IndexFlatL2` holding
`vecs`: the `k` nearest stored vectors as (insertion index, squared L2
distance) pairs, ascending by distance. -/
def search_index (vecs : List Vec) (q : Vec) (k : Nat) : List (Nat × ℚ) :=
  (sort_le candidate_le
    ((List.range vecs.length).map (fun i => (i, sqDist q (vecs.getD i []))))).take k

/-- One result dictionary built by `PolicyRetriever.retrieve`: the chunk, the
similarity score `1 - distance/2` computed from the FAISS distance, and the
chunk's fields flattened in (these are exactly the keys the dictionary
carries — there is no `"section_type"` key). -/
structure RetrievalResult where
  chunk : PolicyChunk
  similarity : ℚ
  text : String
  section_name : String
  policy_type : String
  policy_file : String
  chunk_type : String
deriving Repr, DecidableEq

/-- The result dictionary `PolicyRetriever.retrieve` appends for a chunk at
FAISS distance `distance`. -/
def mk_result (c : PolicyChunk) (distance : ℚ) : RetrievalResult :=
  { chunk := c, similarity := 1 - distance / 2, text := c.text,
    section_name := c.section_name, policy_type := c.policy_type,
    policy_file := c.policy_file, chunk_type := c.chunk_type }

/-- Python truthiness of the `policy_type_filter` argument (`None` and the
empty string are falsy). -/
def filter_active : Option String → Bool
  | none => false
  | some f => !(f == "")

/-- Negation of the `continue` condition of the result loop: `False` exactly
when `policy_type_filter` is truthy and the chunk's policy type differs. -/
def passes_filter (filt : Option String) (c : PolicyChunk) : Bool :=
  !(filter_active filt && c.policy_type != filt.getD "")

/-- The result loop of `PolicyRetriever.retrieve`: walk the search candidates
in order, skip chunks rejected by the policy-type filter, convert the FAISS
distance to a similarity, and stop once `top_k` results have been collected
(the length test runs after the append, as in the source).  An out-of-range
index — impossible when the index was built from these chunks, and an
`IndexError` in Python — stops the loop. -/
def collect_results (chunks : List PolicyChunk) (filt : Option String) (top_k : Nat) :
    List (Nat × ℚ) → List RetrievalResult → List RetrievalResult
  | [], acc => acc
  | (i, d) :: rest, acc =>
    match chunks[i]? with
    | none => acc
    | some c =>
      if passes_filter filt c then
        if top_k ≤ (acc ++ [mk_result c d]).length then acc ++ [mk_result c d]
        else collect_results chunks filt top_k rest (acc ++ [mk_result c d])
      else
        collect_results chunks filt top_k rest acc

/-- State of a `PolicyRetriever`: the chunk list and, once `build_index` has
run, the stored (normalized) embedding vectors.  Freshly constructed
retrievers have `chunks = []` and `index = none`. -/
structure RetrieverState where
  chunks : List PolicyChunk
  index : Option (List Vec)
deriving Repr, DecidableEq

/-- A freshly constructed `PolicyRetriever` (`__init__`). -/
def initial_retriever : RetrieverState := { chunks := [], index := none }

/-- Models `PolicyRetriever.build_index`: store the chunks and the batch of
embedding vectors for their texts.  `embed_batch` models
`generate_embeddings` followed by `faiss.normalize_L2`, so it is expected to
return one unit vector per text (stated as hypotheses where needed). -/
def build_index (embed_batch : List String → List Vec) (_st : RetrieverState)
    (chunks : List PolicyChunk) : RetrieverState :=
  { chunks := chunks, index := some (embed_batch (chunks.map (fun c => c.text))) }

/-- Models `PolicyRetriever.retrieve`.  `embed` models `generate_embedding`
followed by `faiss.normalize_L2` on the query.  Before a successful build
(`index is None or len(chunks) == 0`) the call fails with the source's
`ValueError` message; otherwise it searches `top_k * 3` candidates when a
policy-type filter is active (`top_k` otherwise) and collects at most
`top_k` results. -/
def retrieve (embed : String → Vec) (st : RetrieverState) (query : String)
    (top_k : Nat) (policy_type_filter : Option String) :
    Except String (List RetrievalResult) :=
  match st.index with
  | none => .error "Index not built. Call build_index first."
  | some vecs =>
    if st.chunks.length = 0 then .error "Index not built. Call build_index first."
    else
      let query_embedding := embed query
      let search_k := if filter_active policy_type_filter then top_k * 3 else top_k
      .ok (collect_results st.chunks policy_type_filter top_k
            (search_index vecs query_embedding search_k) [])

/-! ### Secondary category filter (`src/agents/retrieval_agent.py`) -/

/-- Mirrors Python `r.get(key, dflt)` on the string-valued keys of a result
dictionary built by `PolicyRetriever.retrieve`; any other key (in particular
`"section_type"`, which the dictionaries do not carry) yields the default. -/
def dict_get (r : RetrievalResult) (key dflt : String) : String :=
  if key = "text" then r.text
  else if key = "section_name" then r.section_name
  else if key = "policy_type" then r.policy_type
  else if key = "policy_file" then r.policy_file
  else if key = "chunk_type" then r.chunk_type
  else dflt

/-- Mirrors `PolicyRetrievalAgent.filter_by_section_type`: keep the chunks
whose `"section_type"` entry (lowercased) is among the requested types
(lowercased); an empty request or an empty filtered list returns the input
unchanged. -/
def filter_by_section_type (chunks : List RetrievalResult)
    (section_types : List String) : List RetrievalResult :=
  if section_types.isEmpty then chunks
  else
    let filtered := chunks.filter (fun c =>
      (section_types.map pyLower).contains (pyLower (dict_get c "section_type" "")))
    if filtered.isEmpty then chunks else filtered

/-! ### Policy selector (`src/agents/policy_selector.py`)

The intent classifier (`ScenarioClassifier.classify`) is an external semantic
service; `select_policies` takes it as a function parameter `classify`, which
matches the source holding it as `self.classifier` and calling it once when
the user has more than one policy type. -/

/-- The dictionary returned by `ScenarioClassifier.classify`. -/
structure ClassificationResult where
  classification : String
  confidence : String
  reasoning : String
deriving Repr, DecidableEq

/-- The dictionary returned by `PolicySelector.select_policies`. -/
structure SelectionResult where
  policies_to_query : List String
  needs_clarification : Bool
  clarification_question : Option String
  classification : ClassificationResult
deriving Repr, DecidableEq

/-- Mirrors `PolicySelector._generate_clarification_question` (the question
argument is unused, as in the source). -/
def generate_clarification_question (_question : String)
    (available_types : List String) : String :=
  let type_str := String.intercalate " or " (available_types.map pyCapitalize)
  "Your question could relate to either " ++ type_str ++
    " insurance. Are you asking about your vehicle or your home/property?"

/-- Mirrors `PolicySelector.select_policies`.  `user_policies` is the user's
policy dictionary as an insertion-ordered association list (`available_types`
are its keys); `classify` is the external classifier. -/
def select_policies (classify : String → ClassificationResult) (question : String)
    (user_policies : List (String × String)) : SelectionResult :=
  let available_types := user_policies.map Prod.fst
  if available_types.length = 1 then
    { policies_to_query := available_types
      needs_clarification := false
      clarification_question := none
      classification :=
        { classification := available_types.headD ""
          confidence := "high"
          reasoning := "User only has " ++ available_types.headD "" ++ " insurance" } }
  else
    let classification := classify question
    let scenario_type := classification.classification
    if scenario_type = "auto" then
      if available_types.contains "auto" then
        { policies_to_query := ["auto"], needs_clarification := false,
          clarification_question := none, classification := classification }
      else
        { policies_to_query := available_types, needs_clarification := false,
          clarification_question := none, classification := classification }
    else if scenario_type = "property" then
      if available_types.contains "property" then
        { policies_to_query := ["property"], needs_clarification := false,
          clarification_question := none, classification := classification }
      else
        { policies_to_query := available_types, needs_clarification := false,
          clarification_question := none, classification := classification }
    else if scenario_type = "both" then
      { policies_to_query := available_types, needs_clarification := false,
        clarification_question := none, classification := classification }
    else
      { policies_to_query := available_types
        needs_clarification := true
        clarification_question :=
          some (generate_clarification_question question available_types)
        classification := classification }

/-! ### Orchestrator (`src/agents/orchestrator.py`)

`AgentOrchestrator.process_question` composes four collaborators.  The
scenario interpreter, the classifier behind the policy selector, the
retrieval agent and the explanation agent are passed as function parameters;
the policy selector itself is the pure `select_policies` above, as in the
source.  The `agent_trace` strings are reproduced verbatim. -/

/-- The dictionary returned by `ScenarioInterpreter.interpret`. -/
structure ScenarioDetails where
  asset : String
  event : String
  location : String
  policy_type : String
  confidence : String
  reasoning : String
  needs_clarification : Bool
deriving Repr, DecidableEq

/-- The dictionary returned by `ExplanationAgent.generate_response`. -/
structure SynthResponse where
  policy_applied : String
  coverage_result : String
  explanation : String
  policy_references : List String
  disclaimer : String
deriving Repr, DecidableEq

/-- The response dictionary of `AgentOrchestrator.process_question`
(`retrieved_chunks` is only present on the full synthesis path). -/
structure OrchResponse where
  selected_user : String
  policy_applied : String
  coverage_result : String
  explanation : String
  policy_references : List String
  disclaimer : String
  needs_clarification : Bool
  clarification_question : Option String
  scenario_details : ScenarioDetails
  agent_trace : List String
  retrieved_chunks : Option (List RetrievalResult)
deriving Repr, DecidableEq

/-- Mirrors `ExplanationAgent._get_disclaimer`. -/
def get_disclaimer : String :=
  "This information is for educational purposes only and does not " ++
  "constitute a coverage determination or claim decision. Actual coverage " ++
  "depends on the specific facts and circumstances of your situation and " ++
  "the complete terms and conditions of your policy. For official coverage " ++
  "determinations, please contact your insurance company or agent."

/-- An ASCII single-quote character as a string (used by `py_repr_list`). -/
def py_quote : String := String.singleton (Char.ofNat 39)

/-- Python `repr` of a list of strings, as interpolated into the
`"  → Policies to query: ..."` trace entry. -/
def py_repr_list (l : List String) : String :=
  "[" ++ String.intercalate ", " (l.map (fun s => py_quote ++ s ++ py_quote)) ++ "]"

/-- Mirrors `AgentOrchestrator.process_question`.  `interpret` is Agent 2,
`classify` the classifier inside Agent 1 (`select_policies`),
`retrieve_clauses` Agent 3 (`PolicyRetrievalAgent.retrieve_relevant_clauses`)
and `generate_response` Agent 4 (`ExplanationAgent.generate_response`). -/
def process_question
    (interpret : String → ScenarioDetails)
    (classify : String → ClassificationResult)
    (retrieve_clauses :
      String → ScenarioDetails → List (String × String) → List String → Nat →
        List RetrievalResult)
    (generate_response :
      String → List RetrievalResult → List String → ScenarioDetails → SynthResponse)
    (question : String) (user_policies : List (String × String))
    (selected_user : String) : OrchResponse :=
  let trace1 := ["Agent 2: Interpreting scenario..."]
  let scenario_details := interpret question
  let trace2 := trace1 ++
    ["  → Asset: " ++ scenario_details.asset ++ ", Event: " ++
      scenario_details.event ++ ", Location: " ++ scenario_details.location]
  let trace3 := trace2 ++ ["Agent 1: Selecting policies..."]
  let selection_result := select_policies classify question user_policies
  let policies_to_query := selection_result.policies_to_query
  let trace4 := trace3 ++ ["  → Policies to query: " ++ py_repr_list policies_to_query]
  if selection_result.needs_clarification then
    { selected_user := selected_user
      policy_applied := "Unknown"
      coverage_result := "It depends"
      explanation := "Please clarify your question to get a specific coverage answer."
      policy_references := []
      disclaimer := get_disclaimer
      needs_clarification := true
      clarification_question := selection_result.clarification_question
      scenario_details := scenario_details
      agent_trace := trace4 ++ ["  → Clarification needed, returning..."]
      retrieved_chunks := none }
  else
    let trace5 := trace4 ++ ["Agent 3: Retrieving relevant policy clauses..."]
    let retrieved_chunks :=
      retrieve_clauses question scenario_details user_policies policies_to_query 5
    let trace6 := trace5 ++
      ["  → Retrieved " ++ toString retrieved_chunks.length ++ " chunks from demo policies"]
    if retrieved_chunks.isEmpty then
      { selected_user := selected_user
        policy_applied := "Unknown"
        coverage_result := "It depends"
        explanation := "Could not find relevant policy information to answer your question. Please try rephrasing."
        policy_references := []
        disclaimer := get_disclaimer
        needs_clarification := false
        clarification_question := none
        scenario_details := scenario_details
        agent_trace := trace6 ++ ["  → No relevant chunks found!"]
        retrieved_chunks := none }
    else
      let trace7 := trace6 ++ ["Agent 4: Generating explanation..."]
      let response :=
        generate_response question retrieved_chunks policies_to_query scenario_details
      { selected_user := selected_user
        policy_applied := response.policy_applied
        coverage_result := response.coverage_result
        explanation := response.explanation
        policy_references := response.policy_references
        disclaimer := response.disclaimer
        needs_clarification := false
        clarification_question := none
        scenario_details := scenario_details
        agent_trace := trace7 ++ ["  → Explanation generated"]
        retrieved_chunks := some retrieved_chunks }

/-! ### Fixtures for witnesses and counterexamples -/

/-- The filename of the C7 counterexample document. -/
def c7_file : String := "property_policy_1.md"

/-- A document whose top-level section is classified `exclusion` by its body
while its subsection's own heading and body would classify as `coverage`. -/
def c7_content : String :=
  "HEADER\n## General Stuff\nwe do not cover flood\n### Payment\nwe will pay for repairs\n"

/-- The subsection chunk `load_policy c7_file c7_content` produces for
`"### Payment"`. -/
def c7_sub_chunk : PolicyChunk :=
  { text := "### Payment\nwe will pay for repairs", policy_type := "property",
    policy_file := "property_policy_1.md",
    section_name := "General Stuff - Payment", chunk_type := "exclusion" }

/-- The header chunk `load_policy` produces for the C10 witness document. -/
def c10_chunk : PolicyChunk :=
  { text := "H", policy_type := "property", policy_file := "home_policy.md",
    section_name := "Policy Header", chunk_type := "general" }

/-- A coverage-classified retrieval result, as built by
`PolicyRetriever.retrieve` (C6 failing input, first element). -/
def c6_result_cov : RetrievalResult :=
  { chunk := { text := "we cover fire", policy_type := "property",
               policy_file := "property_policy_1.md", section_name := "Coverage",
               chunk_type := "coverage" },
    similarity := 1, text := "we cover fire", section_name := "Coverage",
    policy_type := "property", policy_file := "property_policy_1.md",
    chunk_type := "coverage" }

/-- An exclusion-classified retrieval result, as built by
`PolicyRetriever.retrieve` (C6 failing input, second element). -/
def c6_result_exc : RetrievalResult :=
  { chunk := { text := "floods are not covered", policy_type := "property",
               policy_file := "property_policy_1.md", section_name := "Exclusions",
               chunk_type := "exclusion" },
    similarity := 0, text := "floods are not covered", section_name := "Exclusions",
    policy_type := "property", policy_file := "property_policy_1.md",
    chunk_type := "exclusion" }

/-- Whether a search candidate survives the result loop of `retrieve`: its
index resolves to a chunk and that chunk passes the policy-type filter (used
to state the exact result count of `retrieve`). -/
def cand_passes (chunks : List PolicyChunk) (filt : Option String) (p : Nat × ℚ) : Bool :=
  match chunks[p.1]? with
  | none => false
  | some c => passes_filter filt c

/-- A policy chunk of `policy_type = "auto"` (C4 counterexample index). -/
def c4_auto_chunk (i : Nat) : PolicyChunk :=
  { text := "auto clause " ++ toString i, policy_type := "auto",
    policy_file := "auto_policy_1.md", section_name := "Part " ++ toString i,
    chunk_type := "coverage" }

/-- The single `property` chunk of the C4 counterexample index. -/
def c4_property_chunk : PolicyChunk :=
  { text := "property clause", policy_type := "property",
    policy_file := "property_policy_1.md", section_name := "Dwelling",
    chunk_type := "coverage" }

/-- The C4 counterexample chunk list: three auto chunks and one property
chunk. -/
def c4_chunks : List PolicyChunk :=
  [c4_auto_chunk 0, c4_auto_chunk 1, c4_auto_chunk 2, c4_property_chunk]

/-- The C4 counterexample stored unit vectors: the three auto chunks embed
close to the query direction `[1, 0]`, the property chunk opposite to it. -/
def c4_vecs : List Vec := [[1, 0], [3/5, 4/5], [4/5, -3/5], [-1, 0]]

/-- The C4 counterexample retriever state (index built). -/
def c4_state : RetrieverState := { chunks := c4_chunks, index := some c4_vecs }

/-- The C4 counterexample query embedding. -/
def c4_embed : String → Vec := fun _ => [1, 0]

/-- The single chunk of the C5 one-chunk index. -/
def c5_chunk : PolicyChunk :=
  { text := "we cover fire", policy_type := "property",
    policy_file := "property_policy_1.md", section_name := "Coverage",
    chunk_type := "coverage" }

/-- The C5 retriever state: one chunk embedded at the unit vector `[1, 0]`. -/
def c5_state : RetrieverState := { chunks := [c5_chunk], index := some [[1, 0]] }

/-! ### Helper lemmas on the string primitives and the chunker -/

theorem split_chars_ne_nil (sep : List Char) :
    ∀ fuel s acc, split_chars sep fuel s acc ≠ [] := by
  intro fuel
  induction fuel with
  | zero => intro s acc; cases s <;> simp [split_chars]
  | succ n ih =>
    intro s acc
    cases s with
    | nil => simp [split_chars]
    | cons c rest =>
      simp only [split_chars]
      split
      · simp
      · exact ih rest (c :: acc)

theorem split_chars_no_match (sep : List Char) :
    ∀ fuel s acc, contains_chars s sep = false →
      split_chars sep fuel s acc = [acc.reverse ++ s] := by
  intro fuel
  induction fuel with
  | zero =>
    intro s acc h
    cases s <;> simp [split_chars]
  | succ n ih =>
    intro s acc h
    cases s with
    | nil => simp [split_chars]
    | cons c rest =>
      have hp : sep.isPrefixOf (c :: rest) = false ∧ contains_chars rest sep = false := by
        simpa [contains_chars] using h
      simp only [split_chars]
      rw [if_neg (by simp [hp.1])]
      rw [ih rest (c :: acc) hp.2]
      simp

theorem split_chars_two_of_contains (sep : List Char) (hsep : sep ≠ []) :
    ∀ fuel s acc, s.length ≤ fuel → contains_chars s sep = true →
      2 ≤ (split_chars sep fuel s acc).length := by
  intro fuel
  induction fuel with
  | zero =>
    intro s acc hlen h
    have : s = [] := List.eq_nil_of_length_eq_zero (Nat.le_zero.mp hlen)
    subst this
    simp [contains_chars, List.isEmpty_iff, hsep] at h
  | succ n ih =>
    intro s acc hlen h
    cases s with
    | nil => simp [contains_chars, List.isEmpty_iff, hsep] at h
    | cons c rest =>
      simp only [split_chars]
      split
      · have := split_chars_ne_nil sep n (rest.drop (sep.length - 1)) []
        have hpos : 0 < (split_chars sep n (rest.drop (sep.length - 1)) []).length :=
          List.length_pos.mpr this
        simp only [List.length_cons]
        omega
      · rename_i hcond
        have hlen' : rest.length ≤ n := by
          simpa [List.length_cons, Nat.succ_le_succ_iff] using hlen
        have hpre : sep.isPrefixOf (c :: rest) = false := by
          rcases hb : sep.isPrefixOf (c :: rest) with _ | _
          · rfl
          · exact absurd ⟨List.length_pos.mpr hsep, hb⟩ hcond
        have hrest : contains_chars rest sep = true := by
          rcases hr : contains_chars rest sep with _ | _
          · rw [contains_chars, hpre, hr] at h; simp at h
          · rfl
        exact ih rest (c :: acc) hlen' hrest

theorem pySplit_ne_nil (sep s : String) : pySplit sep s ≠ [] := by
  unfold pySplit
  simp only [ne_eq, List.map_eq_nil_iff]
  exact split_chars_ne_nil _ _ _ _

theorem pySplit_eq_single (sep s : String) (h : containsSub s sep = false) :
    pySplit sep s = [s] := by
  unfold pySplit
  rw [split_chars_no_match sep.data _ s.data [] h]
  rfl

theorem pySplit_two_of_contains (sep s : String) (hsep : sep.data ≠ [])
    (h : containsSub s sep = true) : 2 ≤ (pySplit sep s).length := by
  unfold pySplit
  rw [List.length_map]
  exact split_chars_two_of_contains sep.data hsep s.data.length s.data [] le_rfl h

theorem section_chunks_ne_nil (pt f piece : String) :
    section_chunks pt f piece ≠ [] := by
  rcases hs : pySplit "\n### " ("## " ++ piece) with _ | ⟨intro₀, _ | ⟨s₂, subs⟩⟩
  · exact absurd hs (pySplit_ne_nil _ _)
  · simp [section_chunks, hs]
  · simp [section_chunks, hs]

theorem mem_section_chunks_fields (pt f piece : String) (c : PolicyChunk)
    (hc : c ∈ section_chunks pt f piece) :
    c.policy_type = pt ∧
      c.chunk_type = determine_chunk_type (section_title_of piece) ("## " ++ piece) := by
  simp only [section_chunks] at hc
  rcases hs : pySplit "\n### " ("## " ++ piece) with _ | ⟨intro₀, _ | ⟨s₂, subs⟩⟩ <;>
    rw [hs] at hc
  · simp at hc
  · simp only [List.mem_singleton] at hc
    subst hc
    exact ⟨rfl, rfl⟩
  · simp only [List.mem_append] at hc
    rcases hc with hc | hc
    · split at hc
      · simp at hc
      · simp only [List.mem_singleton] at hc
        subst hc
        exact ⟨rfl, rfl⟩
    · simp only [List.mem_map] at hc
      obtain ⟨sub, _, rfl⟩ := hc
      exact ⟨rfl, rfl⟩

theorem mem_load_policy_cases (f content : String) (c : PolicyChunk)
    (hc : c ∈ load_policy f content) :
    c.policy_type = policy_type_of f ∧
      (c.chunk_type = "general" ∨
        ∃ piece ∈ (pySplit "\n## " content).tail,
          c ∈ section_chunks (policy_type_of f) f piece) := by
  simp only [load_policy] at hc
  rcases hs : pySplit "\n## " content with _ | ⟨header, rest⟩ <;> rw [hs] at hc
  · simp at hc
  · simp only [List.mem_append] at hc
    rcases hc with hc | hc
    · split at hc
      · simp at hc
      · simp only [List.mem_singleton] at hc
        subst hc
        exact ⟨rfl, Or.inl rfl⟩
    · simp only [List.mem_flatMap] at hc
      obtain ⟨piece, hpiece, hcp⟩ := hc
      exact ⟨(mem_section_chunks_fields _ _ _ _ hcp).1,
        Or.inr ⟨piece, by simpa [hs] using hpiece, hcp⟩⟩

/-! ### Helper lemmas: insertion sort -/

theorem length_insert_le (le : α → α → Bool) (a : α) (l : List α) :
    (insert_le le a l).length = l.length + 1 := by
  induction l with
  | nil => rfl
  | cons b bs ih =>
    simp only [insert_le]
    split <;> simp [ih]

theorem length_sort_le (le : α → α → Bool) (l : List α) :
    (sort_le le l).length = l.length := by
  induction l with
  | nil => rfl
  | cons a as ih => simp [sort_le, length_insert_le, ih]

theorem mem_insert_le (le : α → α → Bool) (a x : α) (l : List α) :
    x ∈ insert_le le a l ↔ x = a ∨ x ∈ l := by
  induction l with
  | nil => simp [insert_le]
  | cons b bs ih =>
    simp only [insert_le]
    split
    · simp [List.mem_cons]
    · simp only [List.mem_cons, ih]
      tauto

theorem mem_sort_le (le : α → α → Bool) (x : α) (l : List α) :
    x ∈ sort_le le l ↔ x ∈ l := by
  induction l with
  | nil => simp [sort_le]
  | cons a as ih => simp [sort_le, mem_insert_le, ih]

theorem countP_insert_le (le : α → α → Bool) (p : α → Bool) (a : α) (l : List α) :
    (insert_le le a l).countP p = l.countP p + (if p a then 1 else 0) := by
  induction l with
  | nil => simp [insert_le, List.countP_cons]
  | cons b bs ih =>
    simp only [insert_le]
    split
    · simp only [List.countP_cons]
    · simp only [List.countP_cons, ih]
      omega

theorem countP_sort_le (le : α → α → Bool) (p : α → Bool) (l : List α) :
    (sort_le le l).countP p = l.countP p := by
  induction l with
  | nil => rfl
  | cons a as ih => simp [sort_le, countP_insert_le, ih, List.countP_cons]

theorem pairwise_insert_le (le : α → α → Bool)
    (htr : ∀ x y z, le x y = true → le y z = true → le x z = true)
    (hto : ∀ x y, le x y = true ∨ le y x = true)
    (a : α) (l : List α) (hl : l.Pairwise (fun x y => le x y = true)) :
    (insert_le le a l).Pairwise (fun x y => le x y = true) := by
  induction l with
  | nil => simp [insert_le]
  | cons b bs ih =>
    rcases List.pairwise_cons.mp hl with ⟨hb, hbs⟩
    simp only [insert_le]
    split
    · rename_i hab
      refine List.pairwise_cons.mpr ⟨?_, hl⟩
      intro x hx
      rcases List.mem_cons.mp hx with rfl | hx
      · exact hab
      · exact htr a b x hab (hb x hx)
    · rename_i hab
      refine List.pairwise_cons.mpr ⟨?_, ih hbs⟩
      intro x hx
      rcases (mem_insert_le le a x bs).mp hx with rfl | hx
      · rcases hto x b with h | h
        · exact absurd h hab
        · exact h
      · exact hb x hx

theorem pairwise_sort_le (le : α → α → Bool)
    (htr : ∀ x y z, le x y = true → le y z = true → le x z = true)
    (hto : ∀ x y, le x y = true ∨ le y x = true) (l : List α) :
    (sort_le le l).Pairwise (fun x y => le x y = true) := by
  induction l with
  | nil => simp [sort_le]
  | cons a as ih => exact pairwise_insert_le le htr hto a _ ih

theorem candidate_le_trans (x y z : Nat × ℚ) (h1 : candidate_le x y = true)
    (h2 : candidate_le y z = true) : candidate_le x z = true := by
  simp only [candidate_le, Bool.or_eq_true, Bool.and_eq_true, decide_eq_true_eq] at *
  rcases h1 with h1 | ⟨h1, h1'⟩ <;> rcases h2 with h2 | ⟨h2, h2'⟩
  · exact Or.inl (lt_trans h1 h2)
  · exact Or.inl (h2 ▸ h1)
  · exact Or.inl (h1 ▸ h2)
  · exact Or.inr ⟨h1.trans h2, le_trans h1' h2'⟩

theorem candidate_le_total (x y : Nat × ℚ) :
    candidate_le x y = true ∨ candidate_le y x = true := by
  simp only [candidate_le, Bool.or_eq_true, Bool.and_eq_true, decide_eq_true_eq]
  rcases lt_trichotomy x.2 y.2 with h | h | h
  · exact Or.inl (Or.inl h)
  · rcases Nat.le_total x.1 y.1 with h' | h'
    · exact Or.inl (Or.inr ⟨h, h'⟩)
    · exact Or.inr (Or.inr ⟨h.symm, h'⟩)
  · exact Or.inr (Or.inl h)

theorem candidate_le_refl (x : Nat × ℚ) : candidate_le x x = true := by
  simp [candidate_le]

/-- The head of the sorted candidate list is `candidate_le`-below every
element of the unsorted list. -/
theorem sort_le_head_min (l : List (Nat × ℚ)) (h : Nat × ℚ) (t : List (Nat × ℚ))
    (hs : sort_le candidate_le l = h :: t) (x : Nat × ℚ) (hx : x ∈ l) :
    candidate_le h x = true := by
  have hp := pairwise_sort_le candidate_le candidate_le_trans candidate_le_total l
  rw [hs] at hp
  have hx' : x ∈ h :: t := by
    rw [← hs]
    exact (mem_sort_le _ _ _).mpr hx
  rcases List.mem_cons.mp hx' with rfl | hx'
  · exact candidate_le_refl x
  · exact (List.pairwise_cons.mp hp).1 x hx'

/-! ### Helper lemmas: vector arithmetic -/

theorem sqDist_nonneg : ∀ u v : Vec, 0 ≤ sqDist u v := by
  intro u
  induction u with
  | nil => intro v; simp [sqDist]
  | cons a as ih =>
    intro v
    cases v with
    | nil => simp [sqDist]
    | cons b bs =>
      have h1 := mul_self_nonneg (a - b)
      have h2 := ih bs
      simp only [sqDist]
      linarith

theorem addSq_nonneg : ∀ u v : Vec, 0 ≤ addSq u v := by
  intro u
  induction u with
  | nil => intro v; simp [addSq]
  | cons a as ih =>
    intro v
    cases v with
    | nil => simp [addSq]
    | cons b bs =>
      have h1 := mul_self_nonneg (a + b)
      have h2 := ih bs
      simp only [addSq]
      linarith

theorem sqDist_self : ∀ v : Vec, sqDist v v = 0 := by
  intro v
  induction v with
  | nil => rfl
  | cons a as ih => simp [sqDist, ih]

theorem sqDist_expand : ∀ u v : Vec, u.length = v.length →
    sqDist u v = sqNorm u + sqNorm v - 2 * dotp u v := by
  intro u
  induction u with
  | nil =>
    intro v h
    cases v
    · simp [sqDist, sqNorm, dotp]
    · simp at h
  | cons a as ih =>
    intro v h
    cases v with
    | nil => simp at h
    | cons b bs =>
      simp only [sqDist, sqNorm, dotp]
      rw [ih bs (by simpa using h)]
      ring

theorem addSq_expand : ∀ u v : Vec, u.length = v.length →
    addSq u v = sqNorm u + sqNorm v + 2 * dotp u v := by
  intro u
  induction u with
  | nil =>
    intro v h
    cases v
    · simp [addSq, sqNorm, dotp]
    · simp at h
  | cons a as ih =>
    intro v h
    cases v with
    | nil => simp at h
    | cons b bs =>
      simp only [addSq, sqNorm, dotp]
      rw [ih bs (by simpa using h)]
      ring

theorem sqDist_le_four (u v : Vec) (hu : sqNorm u = 1) (hv : sqNorm v = 1)
    (h : u.length = v.length) : sqDist u v ≤ 4 := by
  have h1 := addSq_nonneg u v
  rw [addSq_expand u v h, hu, hv] at h1
  rw [sqDist_expand u v h, hu, hv]
  linarith

/-! ### Helper lemmas: search candidates and the result loop -/

theorem mem_search_index (vecs : List Vec) (q : Vec) (k : Nat) (p : Nat × ℚ)
    (hp : p ∈ search_index vecs q k) :
    p.1 < vecs.length ∧ p.2 = sqDist q (vecs.getD p.1 []) := by
  have hp' : p ∈ sort_le candidate_le
      ((List.range vecs.length).map (fun i => (i, sqDist q (vecs.getD i [])))) :=
    List.mem_of_mem_take hp
  have hp'' := (mem_sort_le _ _ _).mp hp'
  simp only [List.mem_map, List.mem_range] at hp''
  obtain ⟨i, hi, rfl⟩ := hp''
  exact ⟨hi, rfl⟩

theorem length_search_index (vecs : List Vec) (q : Vec) (k : Nat) :
    (search_index vecs q k).length = min k vecs.length := by
  simp [search_index, List.length_take, length_sort_le]

/-- Exact result count of the retrieval loop: starting below the cap, it
adds one result per passing candidate until the cap is reached. -/
theorem collect_results_length (chunks : List PolicyChunk) (filt : Option String)
    (k : Nat) :
    ∀ cands acc, (∀ p ∈ cands, p.1 < chunks.length) → acc.length < k →
      (collect_results chunks filt k cands acc).length =
        min k (acc.length + cands.countP (cand_passes chunks filt)) := by
  intro cands
  induction cands with
  | nil =>
    intro acc _ hacc
    simp only [collect_results, List.countP_nil, Nat.add_zero]
    omega
  | cons p rest ih =>
    intro acc hvalid hacc
    obtain ⟨i, d⟩ := p
    have hi : i < chunks.length := hvalid (i, d) (List.mem_cons_self _ _)
    have hc : chunks[i]? = some chunks[i] := List.getElem?_eq_getElem hi
    have hvalid' : ∀ p ∈ rest, p.1 < chunks.length :=
      fun p hp => hvalid p (List.mem_cons_of_mem _ hp)
    simp only [collect_results, hc]
    rcases hpass : passes_filter filt chunks[i] with _ | _
    · simp only [Bool.false_eq_true, if_false]
      rw [ih acc hvalid' hacc]
      simp [List.countP_cons, cand_passes, hc, hpass]
    · simp only [if_true]
      have hcount : List.countP (cand_passes chunks filt) ((i, d) :: rest) =
          List.countP (cand_passes chunks filt) rest + 1 := by
        simp [List.countP_cons, cand_passes, hc, hpass]
      by_cases hstop : k ≤ (acc ++ [mk_result chunks[i] d]).length
      · rw [if_pos hstop]
        simp only [List.length_append, List.length_singleton] at hstop ⊢
        rw [hcount]
        omega
      · rw [if_neg hstop]
        simp only [List.length_append, List.length_singleton] at hstop
        have hacc2 : (acc ++ [mk_result chunks[i] d]).length < k := by
          simp only [List.length_append, List.length_singleton]
          omega
        rw [ih _ hvalid' hacc2]
        simp only [List.length_append, List.length_singleton]
        rw [hcount]
        omega

/-- Every result of the retrieval loop is either carried over from the
accumulator or built from a candidate whose index resolves to a chunk. -/
theorem mem_collect_results (chunks : List PolicyChunk) (filt : Option String)
    (k : Nat) (r : RetrievalResult) :
    ∀ cands acc, r ∈ collect_results chunks filt k cands acc →
      r ∈ acc ∨ ∃ p ∈ cands, ∃ c, chunks[p.1]? = some c ∧ r = mk_result c p.2 := by
  intro cands
  induction cands with
  | nil =>
    intro acc hr
    exact Or.inl hr
  | cons p rest ih =>
    intro acc hr
    obtain ⟨i, d⟩ := p
    rcases hc : chunks[i]? with _ | c <;> simp only [collect_results, hc] at hr
    · exact Or.inl hr
    · split at hr
      · split at hr
        · rcases List.mem_append.mp hr with hr | hr
          · exact Or.inl hr
          · exact Or.inr ⟨(i, d), List.mem_cons_self _ _, c, hc,
              (List.mem_singleton.mp hr)⟩
        · rcases ih _ hr with hr | ⟨p', hp', c', hc', hr'⟩
          · rcases List.mem_append.mp hr with hr | hr
            · exact Or.inl hr
            · exact Or.inr ⟨(i, d), List.mem_cons_self _ _, c, hc,
                (List.mem_singleton.mp hr)⟩
          · exact Or.inr ⟨p', List.mem_cons_of_mem _ hp', c', hc', hr'⟩
      · rcases ih _ hr with hr | ⟨p', hp', c', hc', hr'⟩
        · exact Or.inl hr
        · exact Or.inr ⟨p', List.mem_cons_of_mem _ hp', c', hc', hr'⟩

/-- Results already accumulated are never dropped by the retrieval loop. -/
theorem collect_results_mem_acc (chunks : List PolicyChunk) (filt : Option String)
    (k : Nat) (r : RetrievalResult) :
    ∀ cands acc, r ∈ acc → r ∈ collect_results chunks filt k cands acc := by
  intro cands
  induction cands with
  | nil =>
    intro acc hr
    exact hr
  | cons p rest ih =>
    intro acc hr
    obtain ⟨i, d⟩ := p
    rcases hc : chunks[i]? with _ | c <;> simp only [collect_results, hc]
    · exact hr
    · split
      · split
        · exact List.mem_append.mpr (Or.inl hr)
        · exact ih _ (List.mem_append.mpr (Or.inl hr))
      · exact ih _ hr

/-! ### Claim theorems: chunker, filter, selector, not-ready error -/

/-- C7 counterexample: in the document `c7_content`, the chunk produced for
subsection `"### Payment"` is classified `exclusion` (the category computed
once for its parent section, whose body contains "we do not cover"), although
applying the classification rules to that chunk itself — whether its heading
is read as its hierarchical section name or as its own subsection title, and
its body is its own text — yields `coverage` (its body contains "we will pay"
and no exclusion phrase).  So a chunk's `clause_category` is not determined
by applying the rules to that chunk. -/
theorem chunk_category_cex :
    c7_sub_chunk ∈ load_policy c7_file c7_content ∧
    c7_sub_chunk.chunk_type = "exclusion" ∧
    spec_chunk_category c7_sub_chunk = "coverage" ∧
    determine_chunk_type "Payment" c7_sub_chunk.text = "coverage" := by decide

/-- C7 (amended): every chunk's `clause_category` is the one obtained by
applying the classification rules — in priority order, first match winning —
to the chunk's **top-level section** (its title and its full text, heading
lines included); the intro chunk and all subsection chunks of a section
inherit that section-level category, and the pre-heading header chunk is
always `general`.  In particular a heading containing an exclusion keyword is
classified `exclusion` regardless of any coverage keyword it also contains
(heading-exclusion is checked first). -/
theorem chunk_category_amended :
    (∀ pt f piece c, c ∈ section_chunks pt f piece →
        c.chunk_type = determine_chunk_type (section_title_of piece) ("## " ++ piece)) ∧
    (∀ f content c, c ∈ load_policy f content →
        c.chunk_type = "general" ∨
          ∃ piece ∈ (pySplit "\n## " content).tail,
            c ∈ section_chunks (policy_type_of f) f piece ∧
              c.chunk_type = determine_chunk_type (section_title_of piece) ("## " ++ piece)) ∧
    (∀ title body, containsSub (pyLower title) "exclusion" = true →
        determine_chunk_type title body = "exclusion") := by
  refine ⟨fun pt f piece c hc => (mem_section_chunks_fields pt f piece c hc).2, ?_, ?_⟩
  · intro f content c hc
    rcases (mem_load_policy_cases f content c hc).2 with h | ⟨piece, hp, hcp⟩
    · exact Or.inl h
    · exact Or.inr ⟨piece, hp, hcp, (mem_section_chunks_fields _ _ _ _ hcp).2⟩
  · intro title body h
    simp [determine_chunk_type, h]

/-- C7 witness: the amended theorem applied at concrete inputs — a heading
containing both "coverage" and "exclusion" is classified `exclusion`, and the
`c7_sub_chunk` membership instance of the section-level rule. -/
theorem chunk_category_amended_witness :
    determine_chunk_type "Exclusions - Coverage" "## Exclusions - Coverage\nwe will pay"
      = "exclusion" ∧
    c7_sub_chunk.chunk_type =
      determine_chunk_type (section_title_of "General Stuff\nwe do not cover flood\n### Payment\nwe will pay for repairs\n")
        ("## " ++ "General Stuff\nwe do not cover flood\n### Payment\nwe will pay for repairs\n") :=
  ⟨chunk_category_amended.2.2 "Exclusions - Coverage"
      "## Exclusions - Coverage\nwe will pay" (by decide),
    chunk_category_amended.1 "property" "property_policy_1.md"
      "General Stuff\nwe do not cover flood\n### Payment\nwe will pay for repairs\n"
      c7_sub_chunk (by decide)⟩

/-- C8 counterexample: the whitespace document `" "` is a non-empty document
text, yet the chunker returns the empty list for it (the header branch drops
a section that strips to empty, and there are no further sections). -/
theorem load_policy_empty_cex :
    load_policy "policy.md" " " = [] ∧ (" " : String) ≠ "" := by decide

/-- C8 (amended): for every document text that is non-empty **after
stripping whitespace**, the chunker returns a non-empty list of chunks; and a
document containing no top-level heading marker (`"\n## "`) yields exactly
one chunk spanning the stripped full text, with `section_name`
`"Policy Header"` and `clause_category` `general`. -/
theorem load_policy_nonempty_amended (f content : String)
    (h : pyStrip content ≠ "") :
    load_policy f content ≠ [] ∧
    (containsSub content "\n## " = false →
      load_policy f content =
        [{ text := pyStrip content, policy_type := policy_type_of f,
           policy_file := f, section_name := "Policy Header",
           chunk_type := "general" }]) := by
  have single : containsSub content "\n## " = false →
      load_policy f content =
        [{ text := pyStrip content, policy_type := policy_type_of f,
           policy_file := f, section_name := "Policy Header",
           chunk_type := "general" }] := by
    intro hcont
    simp only [load_policy, pySplit_eq_single _ _ hcont]
    rw [if_neg h]
    simp
  refine ⟨?_, single⟩
  by_cases hcont : containsSub content "\n## " = true
  · obtain ⟨header, rest, hs⟩ : ∃ a b, pySplit "\n## " content = a :: b := by
      rcases hsp : pySplit "\n## " content with _ | ⟨a, b⟩
      · exact absurd hsp (pySplit_ne_nil _ _)
      · exact ⟨a, b, rfl⟩
    have h2 : 2 ≤ (pySplit "\n## " content).length :=
      pySplit_two_of_contains _ _ (by decide) hcont
    rcases rest with _ | ⟨p, rest'⟩
    · rw [hs] at h2; simp at h2
    · simp only [load_policy, hs]
      intro hbad
      rcases List.append_eq_nil.mp hbad with ⟨-, h4⟩
      rw [List.flatMap_cons] at h4
      exact section_chunks_ne_nil _ _ p (List.append_eq_nil.mp h4).1
  · have hcont' : containsSub content "\n## " = false := by
      rcases hb : containsSub content "\n## " with _ | _
      · rfl
      · exact absurd hb hcont
    rw [single hcont']
    simp

/-- C8 witness: a marker-free document with non-whitespace content yields
exactly the single header chunk. -/
theorem load_policy_nonempty_amended_witness :
    load_policy "property_policy_1.md" "Just a note" =
      [{ text := pyStrip "Just a note", policy_type := policy_type_of "property_policy_1.md",
         policy_file := "property_policy_1.md", section_name := "Policy Header",
         chunk_type := "general" }] :=
  (load_policy_nonempty_amended "property_policy_1.md" "Just a note" (by decide)).2 (by decide)

/-- C10: whenever the lowercased filename does not contain `"auto"`, every
chunk of the loaded document gets `policy_type = "property"`; and
unconditionally every chunk's policy type is `"auto"` or `"property"`, never
an error or a third value (`"property"` is the fallback). -/
theorem policy_type_fallback (f content : String) :
    (containsSub (pyLower f) "auto" = false →
      ∀ c ∈ load_policy f content, c.policy_type = "property") ∧
    (∀ c ∈ load_policy f content,
      c.policy_type = "auto" ∨ c.policy_type = "property") := by
  constructor
  · intro h c hc
    rw [(mem_load_policy_cases f content c hc).1]
    simp [policy_type_of, h]
  · intro c hc
    rw [(mem_load_policy_cases f content c hc).1]
    unfold policy_type_of
    split
    · exact Or.inl rfl
    · exact Or.inr rfl

/-- C10 witness: the fallback conjunct applied to the header chunk of a
document whose filename `"home_policy.md"` contains no `"auto"`. -/
theorem policy_type_fallback_witness : c10_chunk.policy_type = "property" :=
  (policy_type_fallback "home_policy.md" "H\n## Coverage\nwe cover fire").1
    (by decide) c10_chunk (by decide)

/-- C6 (code bug): `filter_by_section_type` reads the key `"section_type"`,
but the result dictionaries built by `PolicyRetriever.retrieve` carry the
clause category under `"chunk_type"` (there is no `"section_type"` key, even
though `retrieve_relevant_clauses`'s docstring claims one).  So on retrieval
results the lookup always yields `""`, the filtered list is always empty, and
the function always falls back to returning the full input list — here a
`coverage`-matching result exists and the claimed behaviour would return
exactly `[c6_result_cov]`, but the code returns both results. -/
theorem filter_section_type_key_mismatch :
    filter_by_section_type [c6_result_cov, c6_result_exc] ["coverage"] =
      [c6_result_cov, c6_result_exc] ∧
    c6_result_cov.chunk_type = "coverage" ∧
    c6_result_exc.chunk_type = "exclusion" ∧
    List.filter (fun r => r.chunk_type == "coverage") [c6_result_cov, c6_result_exc] =
      [c6_result_cov] ∧
    dict_get c6_result_cov "section_type" "" = "" := by decide

/-- C9: a query issued against a retriever before a successful build
(`index = none`, the state of every freshly constructed retriever) fails with
the not-ready `ValueError`; it never returns an `ok` result, in particular
never a silently empty list. -/
theorem retrieve_not_ready (embed : String → Vec) (st : RetrieverState)
    (query : String) (top_k : Nat) (filt : Option String)
    (h : st.index = none) :
    retrieve embed st query top_k filt =
      Except.error "Index not built. Call build_index first." ∧
    ∀ res : List RetrievalResult,
      retrieve embed st query top_k filt ≠ Except.ok res := by
  refine ⟨by simp [retrieve, h], fun res => by simp [retrieve, h]⟩

/-- C9 witness: querying the freshly constructed retriever fails with the
not-ready error. -/
theorem retrieve_not_ready_witness :
    retrieve (fun _ => [1]) initial_retriever "Am I covered?" 5 none =
      Except.error "Index not built. Call build_index first." :=
  (retrieve_not_ready (fun _ => [1]) initial_retriever "Am I covered?" 5 none rfl).1

/-- C1: for every classifier behaviour (including unrecognized or garbage
classification values) and every user-policy mapping with a non-empty set of
available types, `select_policies` returns a non-empty `policies_to_query`
all of whose elements are available types. -/
theorem selector_exhaustive (classify : String → ClassificationResult)
    (question : String) (user_policies : List (String × String))
    (h : user_policies.map Prod.fst ≠ []) :
    (select_policies classify question user_policies).policies_to_query ≠ [] ∧
    ∀ t ∈ (select_policies classify question user_policies).policies_to_query,
      t ∈ user_policies.map Prod.fst := by
  simp only [select_policies]
  split_ifs with h1 h2 h3 h4 h5 h6
  · exact ⟨h, fun t ht => ht⟩
  · refine ⟨by simp, fun t ht => ?_⟩
    simp only [List.mem_singleton] at ht
    subst ht
    simpa using h3
  · exact ⟨h, fun t ht => ht⟩
  · refine ⟨by simp, fun t ht => ?_⟩
    simp only [List.mem_singleton] at ht
    subst ht
    simpa using h5
  · exact ⟨h, fun t ht => ht⟩
  · exact ⟨h, fun t ht => ht⟩
  · exact ⟨h, fun t ht => ht⟩

/-- C1 witness: a user with both policy types and a garbage classification
value still gets a non-empty selection drawn from the available types. -/
theorem selector_exhaustive_witness :
    (select_policies (fun _ => ⟨"banana", "low", "garbage"⟩) "Is it covered?"
        [("auto", "auto_policy_2.md"), ("property", "property_policy_2.md")]).policies_to_query
      ≠ [] :=
  (selector_exhaustive (fun _ => ⟨"banana", "low", "garbage"⟩) "Is it covered?"
    [("auto", "auto_policy_2.md"), ("property", "property_policy_2.md")] (by decide)).1

/-! ### Claim theorems: retriever top-k count (C4) and similarity range (C5) -/

/-- C4 counterexample: on an index of four chunks — three `auto`, one
`property` — with the query embedding closest to the three auto vectors,
`retrieve` with `k = 1` and filter `"property"` oversamples only `3·k = 3`
candidates, all of which are auto chunks, filters them all out and returns
zero results, although one property chunk matches the filter, so
`min(k, total matching) = 1`.  The claimed equality
`len = min(k, chunks matching the filter)` therefore fails. -/
theorem retrieve_topk_cex :
    retrieve c4_embed c4_state "stolen car" 1 (some "property") = Except.ok [] ∧
    (c4_state.chunks.filter (fun c => c.policy_type == "property")).length = 1 := by
  constructor
  · norm_num [retrieve, c4_state, c4_embed, c4_vecs, c4_chunks, c4_auto_chunk,
      c4_property_chunk, filter_active, search_index, sqDist, sort_le, insert_le,
      candidate_le, collect_results, passes_filter, List.range_succ]
    rw [if_neg (by simp), if_neg (by simp), if_neg (by simp)]
  · decide

/-- C4 (amended): for every index built from at least one chunk and every
`k ≥ 1`, `retrieve` succeeds and returns at most `k` results; with no active
policy-type filter the count is exactly `min(k, number of chunks)` (so asking
for more than available returns all available chunks, not an error); with an
active filter the count is exactly `min(k, number of filter-matching chunks
among the 3·k nearest neighbours searched)`, which can be smaller than
`min(k, total matching chunks)` when the oversampled window misses matching
chunks. -/
theorem retrieve_topk_amended (embed : String → Vec) (st : RetrieverState)
    (query : String) (k : Nat) (filt : Option String) (vecs : List Vec)
    (hix : st.index = some vecs) (hlen : vecs.length = st.chunks.length)
    (hk : 1 ≤ k) (hne : st.chunks.length ≠ 0) :
    ∃ res, retrieve embed st query k filt = Except.ok res ∧
      res.length ≤ k ∧
      (filter_active filt = false → res.length = min k st.chunks.length) ∧
      (filter_active filt = true →
        res.length = min k ((search_index vecs (embed query) (k * 3)).countP
          (cand_passes st.chunks filt))) := by
  have hvalid : ∀ sk, ∀ p ∈ search_index vecs (embed query) sk,
      p.1 < st.chunks.length := by
    intro sk p hp
    have := (mem_search_index vecs (embed query) sk p hp).1
    omega
  have hL : ∀ sk, (collect_results st.chunks filt k
      (search_index vecs (embed query) sk) []).length =
      min k ((search_index vecs (embed query) sk).countP (cand_passes st.chunks filt)) := by
    intro sk
    have := collect_results_length st.chunks filt k
      (search_index vecs (embed query) sk) [] (hvalid sk) (by simpa using hk)
    simpa using this
  refine ⟨collect_results st.chunks filt k
      (search_index vecs (embed query) (if filter_active filt then k * 3 else k)) [],
    by simp [retrieve, hix, hne], ?_, ?_, ?_⟩
  · rw [hL _]
    exact Nat.min_le_left _ _
  · intro hfa
    simp only [hfa, Bool.false_eq_true, if_false]
    have hcnt : (search_index vecs (embed query) k).countP (cand_passes st.chunks filt) =
        (search_index vecs (embed query) k).length := by
      apply List.countP_eq_length.mpr
      intro p hp
      have hip := hvalid k p hp
      have hc : st.chunks[p.1]? = some st.chunks[p.1] := List.getElem?_eq_getElem hip
      simp [cand_passes, hc, passes_filter, hfa]
    rw [hL k, hcnt, length_search_index, hlen]
    omega
  · intro hfa
    simp only [hfa, if_true]
    exact hL (k * 3)

/-- C4 witness: on the four-chunk counterexample index with no filter,
asking for `k = 10 > 4` results succeeds and returns all four chunks. -/
theorem retrieve_topk_amended_witness :
    ∃ res, retrieve c4_embed c4_state "stolen car" 10 none = Except.ok res ∧
      res.length ≤ 10 ∧ res.length = 4 := by
  obtain ⟨res, hok, hle, hnone, -⟩ :=
    retrieve_topk_amended c4_embed c4_state "stolen car" 10 none c4_vecs rfl rfl
      (by omega) (by decide)
  exact ⟨res, hok, hle, by simpa using hnone rfl⟩

/-- C5 counterexample: similarity is computed as `1 - distance/2` where
`distance` is the **squared** L2 distance FAISS reports, i.e. the similarity
equals the cosine similarity of the normalized vectors.  For the unit chunk
vector `[1, 0]` and the antipodal unit query `[-1, 0]` the squared distance
is 4 and the returned similarity is `-1`, outside `[0, 1]`. -/
theorem similarity_cex :
    retrieve (fun _ => [-1, 0]) c5_state "q" 5 none =
      Except.ok [mk_result c5_chunk 4] ∧
    (mk_result c5_chunk 4).similarity = -1 ∧
    sqNorm [-1, 0] = 1 ∧ sqNorm [1, 0] = 1 ∧ ((-1 : ℚ) < 0) := by
  refine ⟨?_, by norm_num [mk_result], by norm_num [sqNorm], by norm_num [sqNorm],
    by norm_num⟩
  norm_num [retrieve, c5_state, c5_chunk, filter_active, search_index, sqDist,
    sort_le, insert_le, candidate_le, collect_results, passes_filter, mk_result]

/-- C5 (amended): when the stored vectors and the query embedding are unit
vectors of equal dimension, every similarity returned by `retrieve` lies in
`[-1, 1]` (it is the cosine similarity; the lower end is reached by
anti-parallel vectors, so `[0, 1]` does not hold); and self-similarity is
exact: querying an index containing the query's own vector returns a result
of similarity exactly 1. -/
theorem similarity_range_amended (embed : String → Vec) (st : RetrieverState)
    (query : String) (k : Nat) (filt : Option String) (vecs : List Vec)
    (hix : st.index = some vecs) (hlen : vecs.length = st.chunks.length)
    (hdim : ∀ v ∈ vecs, v.length = (embed query).length)
    (hunit : ∀ v ∈ vecs, sqNorm v = 1) (hq : sqNorm (embed query) = 1) :
    (∀ res, retrieve embed st query k filt = Except.ok res →
      ∀ r ∈ res, -1 ≤ r.similarity ∧ r.similarity ≤ 1) ∧
    (∀ i, i < vecs.length → embed query = vecs.getD i [] → 1 ≤ k → filt = none →
      ∃ res r, retrieve embed st query k filt = Except.ok res ∧ r ∈ res ∧
        r.similarity = 1) := by
  constructor
  · intro res hres r hr
    by_cases hne : st.chunks.length = 0
    · simp [retrieve, hix, hne] at hres
    · have hres' : collect_results st.chunks filt k
          (search_index vecs (embed query)
            (if filter_active filt then k * 3 else k)) [] = res := by
        simpa [retrieve, hix, hne] using hres
      rw [← hres'] at hr
      rcases mem_collect_results _ _ _ _ _ _ hr with h | ⟨p, hp, c, hc, rfl⟩
      · simp at h
      · obtain ⟨hlt, hd⟩ := mem_search_index _ _ _ p hp
        have hvm : vecs.getD p.1 [] ∈ vecs := by
          rw [List.getD_eq_getElem vecs [] hlt]
          exact List.getElem_mem hlt
        have h0 : 0 ≤ p.2 := hd ▸ sqDist_nonneg _ _
        have h4 : p.2 ≤ 4 := by
          rw [hd]
          exact sqDist_le_four _ _ hq (hunit _ hvm) (hdim _ hvm).symm
        constructor <;> simp only [mk_result] <;> linarith
  · intro i hi hqi hk hfilt
    subst hfilt
    have hne : st.chunks.length ≠ 0 := by omega
    have hmem0 : (i, (0 : ℚ)) ∈
        (List.range vecs.length).map (fun j => (j, sqDist (embed query) (vecs.getD j []))) := by
      have h0 : sqDist (embed query) (vecs.getD i []) = 0 := by
        rw [hqi]
        exact sqDist_self _
      exact List.mem_map.mpr ⟨i, List.mem_range.mpr hi, by rw [h0]⟩
    obtain ⟨h, t, hs⟩ : ∃ h t, sort_le candidate_le
        ((List.range vecs.length).map
          (fun j => (j, sqDist (embed query) (vecs.getD j [])))) = h :: t := by
      rcases hsl : sort_le candidate_le
          ((List.range vecs.length).map
            (fun j => (j, sqDist (embed query) (vecs.getD j [])))) with _ | ⟨h, t⟩
      · have hlength := length_sort_le candidate_le
          ((List.range vecs.length).map
            (fun j => (j, sqDist (embed query) (vecs.getD j []))))
        rw [hsl] at hlength
        simp at hlength
        omega
      · exact ⟨h, t, rfl⟩
    have hle := sort_le_head_min _ h t hs (i, 0) hmem0
    have hhmem : h ∈ (List.range vecs.length).map
        (fun j => (j, sqDist (embed query) (vecs.getD j []))) := by
      have hh : h ∈ h :: t := List.mem_cons_self _ _
      rw [← hs] at hh
      exact (mem_sort_le _ _ _).mp hh
    obtain ⟨j, hj, hjeq⟩ := List.mem_map.mp hhmem
    have hd0 : h.2 = 0 := by
      have hub : h.2 ≤ 0 := by
        simp only [candidate_le, Bool.or_eq_true, Bool.and_eq_true,
          decide_eq_true_eq] at hle
        rcases hle with h' | ⟨h', -⟩
        · linarith
        · exact le_of_eq h'
      have hlb : 0 ≤ h.2 := by
        rw [← hjeq]
        exact sqDist_nonneg _ _
      exact le_antisymm hub hlb
    have hj1 : h.1 < vecs.length := by
      rw [← hjeq]
      simpa using List.mem_range.mp hj
    obtain ⟨k', rfl⟩ : ∃ k', k = k' + 1 := ⟨k - 1, by omega⟩
    have hcands : search_index vecs (embed query) (k' + 1) = h :: t.take k' := by
      unfold search_index
      rw [hs, List.take_succ_cons]
    have hip : h.1 < st.chunks.length := by omega
    have hc : st.chunks[h.1]? = some st.chunks[h.1] := List.getElem?_eq_getElem hip
    refine ⟨collect_results st.chunks none (k' + 1) (h :: t.take k') [],
      mk_result st.chunks[h.1] h.2, ?_, ?_, ?_⟩
    · simp [retrieve, hix, hne, filter_active, hcands]
    · obtain ⟨i1, d1⟩ := h
      simp only [collect_results, hc]
      rw [if_pos (by simp [passes_filter, filter_active])]
      split
      · simp
      · exact collect_results_mem_acc _ _ _ _ _ _ (by simp)
    · simp [mk_result, hd0]

/-- C5 witness: a one-chunk index at the unit vector `[1, 0]` queried with
its own vector returns a result of similarity exactly 1 (which lies in
`[-1, 1]`). -/
theorem similarity_range_amended_witness :
    ∃ res r, retrieve (fun _ => [1, 0]) c5_state "q" 1 none = Except.ok res ∧
      r ∈ res ∧ r.similarity = 1 :=
  (similarity_range_amended (fun _ => [1, 0]) c5_state "q" 1 none [[1, 0]] rfl rfl
      (by intro v hv; simp only [List.mem_singleton] at hv; subst hv; rfl)
      (by intro v hv; simp only [List.mem_singleton] at hv; subst hv; norm_num [sqNorm])
      (by norm_num [sqNorm])).2 0 (by norm_num) rfl le_rfl rfl

/-! ### Claim theorems: orchestrator early exits (C2, C3)

The "not invoked" parts of C2 and C3 are stated semantically: the run's
result does not depend on the retrieval and synthesis oracles (any two
oracles produce identical responses), which is exactly what it means for
those collaborators not to be called on that run. -/

/-- C2: whenever the policy-selection step reports `needs_clarification`, the
orchestrator terminates immediately with a response whose
`needs_clarification` is true and whose `clarification_question` is the
selector's, and neither the retrieval agent nor the synthesizer is invoked on
that run (the response is identical for any two retrieval and synthesis
oracles). -/
theorem orchestrator_clarification_exit
    (interpret : String → ScenarioDetails)
    (classify : String → ClassificationResult)
    (rc rc' : String → ScenarioDetails → List (String × String) → List String → Nat →
      List RetrievalResult)
    (sy sy' : String → List RetrievalResult → List String → ScenarioDetails → SynthResponse)
    (question : String) (user_policies : List (String × String)) (selected_user : String)
    (h : (select_policies classify question user_policies).needs_clarification = true) :
    (process_question interpret classify rc sy question user_policies
        selected_user).needs_clarification = true ∧
    (process_question interpret classify rc sy question user_policies
        selected_user).clarification_question =
      (select_policies classify question user_policies).clarification_question ∧
    process_question interpret classify rc sy question user_policies selected_user =
      process_question interpret classify rc' sy' question user_policies selected_user := by
  refine ⟨?_, ?_, ?_⟩ <;> simp [process_question, h]

/-- C2 witness: with an ambiguous classification for a two-policy user the
orchestrator returns a clarification response, independent of the retrieval
and synthesis oracles. -/
theorem orchestrator_clarification_exit_witness :
    (process_question
        (fun _ => ⟨"unknown", "unknown", "unknown", "ambiguous", "low", "r", true⟩)
        (fun _ => ⟨"ambiguous", "low", "r"⟩)
        (fun _ _ _ _ _ => []) (fun _ _ _ _ => ⟨"Auto", "Yes", "e", [], "d"⟩)
        "Is flood damage covered?"
        [("auto", "auto_policy_2.md"), ("property", "property_policy_2.md")]
        "carol").needs_clarification = true :=
  (orchestrator_clarification_exit
    (fun _ => ⟨"unknown", "unknown", "unknown", "ambiguous", "low", "r", true⟩)
    (fun _ => ⟨"ambiguous", "low", "r"⟩)
    (fun _ _ _ _ _ => []) (fun _ _ _ _ _ => [c6_result_cov])
    (fun _ _ _ _ => ⟨"Auto", "Yes", "e", [], "d"⟩)
    (fun _ _ _ _ => ⟨"Both", "No", "x", [], "d"⟩)
    "Is flood damage covered?"
    [("auto", "auto_policy_2.md"), ("property", "property_policy_2.md")]
    "carol" (by decide)).1

/-- C3: whenever the selection step does not ask for clarification and the
retrieval step yields zero chunks, the orchestrator terminates with
`coverage_result = "It depends"` and the no-information explanation, without
invoking the synthesizer (the response is identical for any two synthesis
oracles); the run produces a well-formed response rather than raising (the
embedded `process_question` is a total function into `OrchResponse`). -/
theorem orchestrator_empty_retrieval
    (interpret : String → ScenarioDetails)
    (classify : String → ClassificationResult)
    (rc : String → ScenarioDetails → List (String × String) → List String → Nat →
      List RetrievalResult)
    (sy sy' : String → List RetrievalResult → List String → ScenarioDetails → SynthResponse)
    (question : String) (user_policies : List (String × String)) (selected_user : String)
    (hsel : (select_policies classify question user_policies).needs_clarification = false)
    (hret : rc question (interpret question) user_policies
      (select_policies classify question user_policies).policies_to_query 5 = []) :
    (process_question interpret classify rc sy question user_policies
        selected_user).coverage_result = "It depends" ∧
    (process_question interpret classify rc sy question user_policies
        selected_user).explanation =
      "Could not find relevant policy information to answer your question. Please try rephrasing." ∧
    process_question interpret classify rc sy question user_policies selected_user =
      process_question interpret classify rc sy' question user_policies selected_user := by
  refine ⟨?_, ?_, ?_⟩ <;> simp [process_question, hsel, hret]

/-- C3 witness: a clear auto classification with an empty retrieval result
gives the "It depends" no-information response. -/
theorem orchestrator_empty_retrieval_witness :
    (process_question
        (fun _ => ⟨"car", "theft", "road", "auto", "high", "r", false⟩)
        (fun _ => ⟨"auto", "high", "r"⟩)
        (fun _ _ _ _ _ => []) (fun _ _ _ _ => ⟨"Auto", "Yes", "e", [], "d"⟩)
        "Am I covered if my car is stolen?"
        [("auto", "auto_policy_2.md"), ("property", "property_policy_2.md")]
        "carol").coverage_result = "It depends" :=
  (orchestrator_empty_retrieval
    (fun _ => ⟨"car", "theft", "road", "auto", "high", "r", false⟩)
    (fun _ => ⟨"auto", "high", "r"⟩)
    (fun _ _ _ _ _ => [])
    (fun _ _ _ _ => ⟨"Auto", "Yes", "e", [], "d"⟩)
    (fun _ _ _ _ => ⟨"Both", "No", "x", [], "d"⟩)
    "Am I covered if my car is stolen?"
    [("auto", "auto_policy_2.md"), ("property", "property_policy_2.md")]
    "carol" (by decide) rfl).1

end PolicyRag
